import Mathlib

/-!
Shallow embedding of the aztlanex repository (src/aztec-contracts.ts and the
unnamed AzGuard wallet connector file) in Lean 4.

Modelling conventions:
  * Parsed JSON values are the inductive type `Json`.  JavaScript's
    `undefined` (a missing property) is represented with `Option Json`
    (`none` = the property is absent / undefined); explicit JSON `null`
    is `Json.null`.
  * JavaScript numbers are modelled as `Int` (every numeric value the
    claims touch is an integer of small magnitude, where float and
    integer arithmetic agree).
  * A `Promise` that can reject is `Except String α`; the `String` is the
    `.message` of the thrown `Error`.  External effects (fetch, the wallet
    extension, `crypto` randomness, SHA-256 digests) are inputs: each
    operation takes a record describing the outcome of every external
    call it performs, and is otherwise the source's control flow verbatim.
  * Mutable module/class state (the `azguardInstance` singleton, the
    `account`/`keyPair`/`pxe` fields) is passed and returned explicitly.
-/

/-- A parsed JSON value (the result of `response.json()`). -/
inductive Json where
  | null : Json
  | bool (b : Bool) : Json
  | num (n : Int) : Json
  | str (s : String) : Json
  | arr (elems : List Json) : Json
  | obj (fields : List (String × Json)) : Json
deriving Repr

/-- Property access `j.k`: `some v` when `j` is an object that has the key,
`none` (JavaScript `undefined`) otherwise. -/
def Json.getField : Json → String → Option Json
  | .obj fields, k => fields.lookup k
  | _, _ => none

/-- JavaScript truthiness of a value (`Boolean(v)`, `if (v)`): `false`,
`0`, the empty string and `null` are falsy; arrays and objects are truthy. -/
def Json.truthy : Json → Bool
  | .null => false
  | .bool b => b
  | .num n => n != 0
  | .str s => s != ""
  | .arr _ => true
  | .obj _ => true

/-- Truthiness of a possibly-undefined value (`undefined` is falsy). -/
def jsTruthyOpt (v : Option Json) : Bool :=
  match v with
  | some j => j.truthy
  | none => false

/-- A possibly-undefined value as it is returned from a function
(`return result.result` with the field absent returns `undefined`;
we conflate that with `Json.null`, the only distinction the claims
never observe). -/
def jsVal (v : Option Json) : Json :=
  v.getD Json.null

mutual
/-- JavaScript `ToString` of a value, as used by template literals,
`String.prototype.toString`, and `parseInt`'s argument coercion. -/
def jsToString : Json → String
  | .null => "null"
  | .bool b => cond b "true" "false"
  | .num n => toString n
  | .str s => s
  | .arr elems => jsToStringList elems
  | .obj _ => "[object Object]"

/-- `Array.prototype.toString` = `join(",")`. -/
def jsToStringList : List Json → String
  | [] => ""
  | [j] => jsToStringElem j
  | j :: rest => jsToStringElem j ++ "," ++ jsToStringList rest

/-- An array element inside `join`: `null`/`undefined` become the empty string. -/
def jsToStringElem : Json → String
  | .null => ""
  | j => jsToString j
end

/-- `ToString` of a possibly-undefined value (template literal over
`undefined` prints "undefined"). -/
def jsToStringOpt : Option Json → String
  | some j => jsToString j
  | none => "undefined"

/-- Value of a hexadecimal digit character, if any. -/
def charHexVal (c : Char) : Option Nat :=
  if '0' ≤ c ∧ c ≤ '9' then some (c.toNat - 48)
  else if 'a' ≤ c ∧ c ≤ 'f' then some (c.toNat - 87)
  else if 'A' ≤ c ∧ c ≤ 'F' then some (c.toNat - 55)
  else none

/-- Accumulate leading digits of the given base, stopping at the first
character that is not a digit of that base. -/
def parseDigitsAux (base : Nat) : List Char → Nat → Nat
  | [], acc => acc
  | c :: rest, acc =>
    match charHexVal c with
    | some v => if v < base then parseDigitsAux base rest (acc * base + v) else acc
    | none => acc

/-- Leading digits of the given base; `none` (NaN) when the first
character is not a digit of that base. -/
def parseIntFrom (base : Nat) : List Char → Option Nat
  | [] => none
  | c :: rest =>
    match charHexVal c with
    | some v => if v < base then some (parseDigitsAux base (c :: rest) 0) else none
    | none => none

/-- JavaScript `parseInt(s)` (radix argument omitted): skip leading
whitespace, optional sign, a `0x`/`0X` prefix selects base 16; `none` is NaN. -/
def parseIntJs (s : String) : Option Int :=
  let cs := s.data.dropWhile (fun c => c = ' ' ∨ c = '\t' ∨ c = '\n' ∨ c = '\r')
  let signAndRest : Int × List Char :=
    match cs with
    | '-' :: rest => (-1, rest)
    | '+' :: rest => (1, rest)
    | _ => (1, cs)
  let baseAndRest : Nat × List Char :=
    match signAndRest.2 with
    | '0' :: 'x' :: rest => (16, rest)
    | '0' :: 'X' :: rest => (16, rest)
    | _ => (10, signAndRest.2)
  (parseIntFrom baseAndRest.1 baseAndRest.2).map (fun n => signAndRest.1 * n)

/-- `String.prototype.padStart(n, c)`. -/
def padStart (s : String) (n : Nat) (c : Char) : String :=
  String.mk (List.replicate (n - s.length) c) ++ s

namespace AztecRPCClient

/-- `AztecRPCClient.simulateTransaction` (src/aztec-contracts.ts lines 71-101),
as a function of the outcome of `fetch` + `response.json()` (`.error e` when
either rejects with message `e`, `.ok resp` when `resp` is the parsed body).
The contract address, function name and params only shape the posted body and
the log line; they do not affect the returned value.  On `result.error` truthy
it throws `Simulation error: ${result.error.message}`; the catch block logs
and re-throws. -/
def simulateTransaction (respOutcome : Except String Json) : Except String Json :=
  match respOutcome with
  | .error e => .error e
  | .ok result =>
    if jsTruthyOpt (result.getField "error") then
      .error ("Simulation error: " ++
        jsToStringOpt ((result.getField "error").bind (fun e => e.getField "message")))
    else
      .ok (jsVal (result.getField "result"))

/-- `AztecRPCClient.getBlockNumber` (lines 103-124): returns
`result.result || 0`; any exception from `fetch`/`json` is caught and `0`
is returned.  It never throws and never inspects `.error`. -/
def getBlockNumber (respOutcome : Except String Json) : Json :=
  match respOutcome with
  | .error _ => Json.num 0
  | .ok result =>
    if jsTruthyOpt (result.getField "result") then jsVal (result.getField "result")
    else Json.num 0

/-- `ToInt32` wrap as performed by JavaScript `<<` and `&`. -/
def toInt32 (n : Int) : Int :=
  let m := n % 4294967296
  if m < 2147483648 then m else m - 4294967296

/-- One iteration of the rolling-hash loop of `AztecRPCClient.hashString`
(lines 216-224): `hash = ((hash << 5) - hash) + char; hash = hash & hash`.
`hash << 5` wraps the shifted value to a signed 32-bit integer, the
subtraction and addition are exact, and `hash & hash` wraps the sum. -/
def hashStep (hash : Int) (char : Nat) : Int :=
  toInt32 (toInt32 (hash * 32) - hash + char)

/-- `AztecRPCClient.hashString` (lines 216-224): fold the rolling hash over
the code units of the input (for the claims' inputs, code points and UTF-16
code units coincide), then `'0x' + Math.abs(hash).toString(16).padStart(64, '0')`. -/
def hashString (input : String) : String :=
  let h := input.data.foldl (fun hash c => hashStep hash c.toNat) 0
  "0x" ++ padStart (Nat.toDigits 16 h.natAbs).asString 64 '0'

/-- Result object of `AztecRPCClient.sendTransaction` (lines 183-198). -/
structure SendTxResult where
  transactionHash : String
  status : String
  blockNumber : Nat
  gasUsed : String
deriving Repr, DecidableEq

/-- `AztecRPCClient.sendTransaction` (lines 183-198).  The body only logs and
builds a literal object from two `Math.random()` draws; there is no `fetch`.
`randHex` is the hex expansion of the first draw after the leading "0."
(`Math.random().toString(16).substring(2, 66)` keeps at most 64 of its
characters); `randBlock` is `Math.floor(Math.random() * 1000000)`, a value
in `[0, 1000000)`.  The four call arguments appear only in the log line. -/
def sendTransaction (randHex : String) (randBlock : Nat)
    (contractAddress functionName : String) (params : List Json)
    (from? : Option String) : SendTxResult :=
  { transactionHash := "0x" ++ String.mk (randHex.data.take 64)
  , status := "success"
  , blockNumber := randBlock
  , gasUsed := "21000" }

end AztecRPCClient

namespace AztecContractClient

/-- `AztecContractClient.hasProfile` (lines 269-277): `Boolean(result)` of the
simulate outcome; any exception is caught, logged, and `false` is returned. -/
def hasProfile (rpcOutcome : Except String Json) : Bool :=
  match rpcOutcome with
  | .error _ => false
  | .ok result => result.truthy

/-- `AztecContractClient.getProfileId` (lines 279-287):
`result?.toString() || '0'`; any exception yields `'0'`. -/
def getProfileId (rpcOutcome : Except String Json) : String :=
  match rpcOutcome with
  | .error _ => "0"
  | .ok result =>
    match result with
    | Json.null => "0"
    | v => if jsToString v != "" then jsToString v else "0"

/-- `AztecContractClient.getTotalProfiles` (lines 289-297):
`parseInt(result) || 0` (NaN and 0 both fall back to 0); any exception
yields `0`. -/
def getTotalProfiles (rpcOutcome : Except String Json) : Int :=
  match rpcOutcome with
  | .error _ => 0
  | .ok result =>
    match parseIntJs (jsToString result) with
    | some n => if n != 0 then n else 0
    | none => 0

/-- `AztecContractClient.getProfileVerifications` (lines 300-308):
`Array.isArray(result) ? result : [false×6]`; any exception yields the
six-false array. -/
def getProfileVerifications (rpcOutcome : Except String Json) : Json :=
  match rpcOutcome with
  | .error _ => Json.arr (List.replicate 6 (Json.bool false))
  | .ok result =>
    match result with
    | Json.arr elems => Json.arr elems
    | _ => Json.arr (List.replicate 6 (Json.bool false))

end AztecContractClient

/-! The AzGuard wallet connector (src/unnamed/part_000, "azguard-client").
The `AzguardClient` SDK object is modelled by the outcomes of the calls the
connector makes on it; `window.open` of the install page is a side effect
with no observable return and is not recorded. -/

/-- The wallet SDK client object as the connector observes it:
`connected` as read after `create()`, the outcome of `connect(...)` if it is
invoked, and `accounts` as read afterwards (`none` models a null/undefined
accounts list). -/
structure AzguardClient where
  connected : Bool
  connectOutcome : Except String Unit
  accounts : Option (List String)
deriving Repr

/-- Outcomes of the external calls `connectAzGuard` makes:
`AzguardClient.isAzguardInstalled()` and `AzguardClient.create()`
(the latter may resolve to null, modelled `ok none`). -/
structure AzGuardWorld where
  isInstalled : Except String Bool
  create : Except String (Option AzguardClient)
deriving Repr

/-- The object built by `createAccountWrapper` (lines 15-31); the
`getAddress`/`signMessage` closures and the client back-reference carry no
data beyond these two fields and the client itself. -/
structure AccountWrapper where
  address : String
  fullAccount : String
deriving Repr, DecidableEq

/-- The `AzGuardConnectionResult` interface (lines 7-13). -/
structure AzGuardConnectionResult where
  success : Bool
  account : Option AccountWrapper := none
  address : Option String := none
  provider : Option String := none
  error : Option String := none
deriving Repr, DecidableEq

/-- JavaScript `String.prototype.split` with a single-character separator:
`"a:b".split(':') = ["a","b"]`, `"".split(':') = [""]`. -/
def splitChar (sep : Char) : List Char → List (List Char)
  | [] => [[]]
  | c :: rest =>
    let parts := splitChar sep rest
    if c = sep then [] :: parts
    else
      match parts with
      | [] => [[c]]
      | p :: ps => (c :: p) :: ps

/-- Address extraction of `connectAzGuard` (lines 82-90): when the account
string contains ':', split on ':' and take `parts[parts.length - 1]`;
otherwise the string is already the address.  (The `typeof` guard always
holds here: accounts are modelled as strings.) -/
def extractAddress (fullAccount : String) : String :=
  if fullAccount.data.contains ':' then
    String.mk ((splitChar ':' fullAccount.data).getLastD [])
  else fullAccount

/-- The try block of `connectAzGuard` (lines 34-100), returning the result
together with the new value of the `azguardInstance` singleton (which the
not-installed early return leaves untouched); `.error` is a thrown
exception reaching the catch block. -/
def connectAzGuardTry (w : AzGuardWorld) (inst : Option AzguardClient) :
    Except String (AzGuardConnectionResult × Option AzguardClient) :=
  match w.isInstalled with
  | .error e => .error e
  | .ok false =>
    .ok ({ success := false, error := some "AzGuard wallet not installed" }, inst)
  | .ok true =>
    match w.create with
    | .error e => .error e
    | .ok none => .error "Failed to initialize AzGuard client"
    | .ok (some azguard) =>
      let connectStep : Except String Unit :=
        if azguard.connected then .ok () else azguard.connectOutcome
      match connectStep with
      | .error e => .error e
      | .ok _ =>
        match azguard.accounts with
        | none => .error "No account returned from AzGuard"
        | some [] => .error "No account returned from AzGuard"
        | some (fullAccount :: _) =>
          let address := extractAddress fullAccount
          .ok ({ success := true
               , account := some { address := address, fullAccount := fullAccount }
               , address := some address
               , provider := some "azguard" }, some azguard)

/-- `connectAzGuard` (lines 33-109): the try block, with the catch block
logging, setting `azguardInstance = null` and returning
`{success:false, error: err.message}`. -/
def connectAzGuard (w : AzGuardWorld) (inst : Option AzguardClient) :
    AzGuardConnectionResult × Option AzguardClient :=
  match connectAzGuardTry w inst with
  | .ok r => r
  | .error e => ({ success := false, error := some e }, none)

/-- `getAzGuardInstance` (line 122): reads the module-level singleton. -/
def getAzGuardInstance (inst : Option AzguardClient) : Option AzguardClient :=
  inst

namespace AztecSponsoredWallet

/-- The private mutable fields of `AztecSponsoredWallet` (aztec-client file):
`account: any = null` and `keyPair: CryptoKeyPair | null = null`.  The account
object and key material are opaque to the claims and modelled as `Json`. -/
structure State where
  account : Option Json
  keyPair : Option Json
deriving Repr

/-- `AztecSponsoredWallet.getCurrentAccount` (line 805 region): returns the
`account` field. -/
def getCurrentAccount (s : State) : Option Json :=
  s.account

/-- `AztecSponsoredWallet.disconnect` (lines 809-812): sets `account` and
`keyPair` to null. -/
def disconnect (s : State) : State :=
  { account := none, keyPair := none }

end AztecSponsoredWallet

namespace AztecAccountAbstraction

/-- The sponsor FPC address from `AZTEC_AA_CONFIG`. -/
def sponsorAddress : String :=
  "0x1260a43ecf03e985727affbbe3e483e60b836ea821b6305bea1c53398b986047"

/-- The part of a `fetch` `Response` the code reads: `ok` and `status`. -/
structure FetchResp where
  ok : Bool
  status : Nat
deriving Repr

/-- Outcomes of the external calls `createAAAccount` makes, in order: the
`pxe_getNodeInfo` fetch and its `.json()`, the `aztec_sendTransaction`
fetch and its `.json()`; `randAddrs n` is the address produced by the
`(n+1)`-th call of `generateAAAddress` (fresh `crypto.getRandomValues`
bytes each call); `sha256hex` is the `hashString` SHA-256 digest used for
`argsHash` (opaque to the claims). -/
structure AAWorld where
  statusFetch : Except String FetchResp
  statusJson : Except String Json
  createFetch : Except String FetchResp
  createJson : Except String Json
  randAddrs : Nat → String
  sha256hex : String → String

/-- The data the `createAccountPayload` deployment transaction carries that
depends on this call: `origin`, `functionData.contractAddress` and the `args`
value are the generated address, `argsHash` its digest, the fee asset the
sponsor address. -/
structure AAPayloadTx where
  origin : String
  contractAddress : String
  argsHash : String
  argValue : String
  feeAssetAddress : String
deriving Repr, DecidableEq

/-- The `AAAccountResult` interface (address kept as the raw value the code
assigns, which on the fallback path is a generated string). -/
structure AAAccountResult where
  success : Bool
  address : Option Json := none
  provider : Option String := none
  error : Option String := none
deriving Repr

/-- The `this.account` object assigned on success. -/
structure AAAccount where
  address : Json
  type : String
  isGasless : Bool
  sponsor : String
  transactionHash : Option Json
deriving Repr

/-- Observable outcome of one `createAAAccount` call: the returned result,
the deployment payload that was posted (if execution reached that `fetch`),
and the value of `this.account` afterwards. -/
structure AAOutcome where
  result : AAAccountResult
  sentTx : Option AAPayloadTx
  account : Option AAAccount

/-- The catch block of `createAAAccount`: log and return
`{success:false, error: e.message}` (the account field is untouched). -/
def caught (e : String) (sent : Option AAPayloadTx) (prior : Option AAAccount) : AAOutcome :=
  { result := { success := false, error := some e }, sentTx := sent, account := prior }

/-- `AztecAccountAbstraction.createAAAccount` (lines 838-946): check the PXE
status fetch (`!ok` throws `PXE connection failed: HTTP ${status}`), parse its
body (only logged), generate `aaAddress` (first `generateAAAddress` call),
post the deployment payload (`!ok` throws
`Account creation failed: HTTP ${status}`), parse the result, and take
`createResult.result?.address || this.generateAAAddress()` — a second, fresh
random address when the server returns none — as the account address. -/
def createAAAccount (w : AAWorld) (prior : Option AAAccount) : AAOutcome :=
  match w.statusFetch with
  | .error e => caught e none prior
  | .ok statusResp =>
    if !statusResp.ok then
      caught ("PXE connection failed: HTTP " ++ toString statusResp.status) none prior
    else
      match w.statusJson with
      | .error e => caught e none prior
      | .ok _ =>
        let aaAddress := w.randAddrs 0
        let payload : AAPayloadTx :=
          { origin := aaAddress
          , contractAddress := aaAddress
          , argsHash := w.sha256hex aaAddress
          , argValue := aaAddress
          , feeAssetAddress := sponsorAddress }
        match w.createFetch with
        | .error e => caught e (some payload) prior
        | .ok createResp =>
          if !createResp.ok then
            caught ("Account creation failed: HTTP " ++ toString createResp.status)
              (some payload) prior
          else
            match w.createJson with
            | .error e => caught e (some payload) prior
            | .ok createResult =>
              let resultField := createResult.getField "result"
              let addrField := resultField.bind (fun r => r.getField "address")
              let address : Json :=
                if jsTruthyOpt addrField then jsVal addrField
                else Json.str (w.randAddrs 1)
              let txHash := resultField.bind (fun r => r.getField "transactionHash")
              let account : AAAccount :=
                { address := address
                , type := "account_abstraction"
                , isGasless := true
                , sponsor := sponsorAddress
                , transactionHash := txHash }
              { result := { success := true
                          , address := some address
                          , provider := some "account_abstraction" }
              , sentTx := some payload
              , account := some account }

/-- The private mutable fields of `AztecAccountAbstraction`:
`account: any = null` and `pxe: any = null`. -/
structure State where
  account : Option Json
  pxe : Option Json
deriving Repr

/-- `AztecAccountAbstraction.getCurrentAccount` (lines 955-957). -/
def getCurrentAccount (s : State) : Option Json :=
  s.account

/-- `AztecAccountAbstraction.disconnect` (lines 967-970): sets `account`
and `pxe` to null. -/
def disconnect (s : State) : State :=
  { account := none, pxe := none }

end AztecAccountAbstraction

/-! Helper lemmas. -/

/-- Property access only succeeds on objects, and objects are truthy. -/
theorem Json.truthy_of_getField {j : Json} {k : String} {v : Json}
    (h : j.getField k = some v) : j.truthy = true := by
  cases j <;> simp [Json.getField, Json.truthy] at h ⊢

/-- `split` never returns an empty list of parts. -/
theorem splitChar_ne_nil (sep : Char) (l : List Char) : splitChar sep l ≠ [] := by
  induction l with
  | nil => simp [splitChar]
  | cons c rest ih =>
    rw [splitChar]
    split
    · simp
    · split <;> simp

/-- `split` on a string that does not contain the separator returns the
string as the single part. -/
theorem splitChar_of_not_mem {sep : Char} {l : List Char} (h : sep ∉ l) :
    splitChar sep l = [l] := by
  induction l with
  | nil => rfl
  | cons c rest ih =>
    have hc : ¬ c = sep := fun hc => h (hc ▸ List.mem_cons_self c rest)
    have hr : sep ∉ rest := fun hm => h (List.mem_cons_of_mem c hm)
    rw [splitChar, if_neg hc, ih hr]

/-- `split` on a string that contains the separator returns at least two parts. -/
theorem two_le_splitChar_length {sep : Char} {l : List Char} (h : sep ∈ l) :
    2 ≤ (splitChar sep l).length := by
  induction l with
  | nil => cases h
  | cons c rest ih =>
    rw [splitChar]
    by_cases hc : c = sep
    · rw [if_pos hc]
      have h1 : 0 < (splitChar sep rest).length :=
        List.length_pos.mpr (splitChar_ne_nil sep rest)
      simp only [List.length_cons]
      omega
    · rw [if_neg hc]
      have hmem : sep ∈ rest := by
        rcases List.mem_cons.mp h with h' | h'
        · exact absurd h'.symm hc
        · exact h'
      have h2 := ih hmem
      cases hsp : splitChar sep rest with
      | nil => exact absurd hsp (splitChar_ne_nil sep rest)
      | cons q qs =>
        rw [hsp] at h2
        simp only [List.length_cons] at h2 ⊢
        omega

/-- The last part of `split` is everything after the last separator. -/
theorem splitChar_getLast?_append {sep : Char} (p a : List Char) (ha : sep ∉ a) :
    (splitChar sep (p ++ sep :: a)).getLast? = some a := by
  induction p with
  | nil =>
    rw [List.nil_append, splitChar, if_pos rfl, splitChar_of_not_mem ha]
    rfl
  | cons c p' ih =>
    rw [List.cons_append, splitChar]
    by_cases hc : c = sep
    · rw [if_pos hc]
      cases hsp : splitChar sep (p' ++ sep :: a) with
      | nil => exact absurd hsp (splitChar_ne_nil _ _)
      | cons q qs =>
        rw [hsp] at ih
        rw [List.getLast?_cons_cons]
        exact ih
    · rw [if_neg hc]
      have hmem : sep ∈ p' ++ sep :: a :=
        List.mem_append_right _ (List.mem_cons_self _ _)
      have hlen := two_le_splitChar_length hmem
      cases hsp : splitChar sep (p' ++ sep :: a) with
      | nil => exact absurd hsp (splitChar_ne_nil _ _)
      | cons q qs =>
        rw [hsp] at ih hlen
        cases qs with
        | nil => simp at hlen
        | cons r rs =>
          rw [List.getLast?_cons_cons]
          rw [List.getLast?_cons_cons] at ih
          exact ih

/-! Theorems settling the claims. -/

/-- Claim C1: for every RPC response whose parsed JSON contains an error
object with message `m`, `AztecRPCClient.simulateTransaction` throws an
error whose message contains `m` (namely `Simulation error: m`), and does
not return a value. -/
theorem simulateTransaction_rejects_with_error_message
    (resp errObj : Json) (m : String)
    (hresp : resp.getField "error" = some errObj)
    (hmsg : errObj.getField "message" = some (Json.str m)) :
    (∃ pre post, AztecRPCClient.simulateTransaction (.ok resp) =
        .error (pre ++ m ++ post)) ∧
    ∀ v, AztecRPCClient.simulateTransaction (.ok resp) ≠ .ok v := by
  have htr : errObj.truthy = true := Json.truthy_of_getField hmsg
  have hres : AztecRPCClient.simulateTransaction (.ok resp) =
      .error ("Simulation error: " ++ m) := by
    simp [AztecRPCClient.simulateTransaction, hresp, jsTruthyOpt, htr, hmsg,
      jsToStringOpt, jsToString]
  refine ⟨⟨"Simulation error: ", "", ?_⟩, ?_⟩
  · rw [hres]
    simp
  · intro v
    rw [hres]
    simp

/-- Witness for C1 at the concrete response `{error:{message:"x"}}`. -/
theorem simulateTransaction_rejects_with_error_message_witness :
    (∃ pre post, AztecRPCClient.simulateTransaction
        (.ok (Json.obj [("error", Json.obj [("message", Json.str "x")])])) =
        .error (pre ++ "x" ++ post)) ∧
    ∀ v, AztecRPCClient.simulateTransaction
        (.ok (Json.obj [("error", Json.obj [("message", Json.str "x")])])) ≠ .ok v :=
  simulateTransaction_rejects_with_error_message _ _ "x" rfl rfl

/-- Claim C2: when the wallet extension is not installed
(`isAzguardInstalled()` resolves `false`), `connectAzGuard` returns
`{success:false, error:"AzGuard wallet not installed"}` without throwing
(the function is total: every outcome is a returned result), and the
singleton is left as it was. -/
theorem connectAzGuard_not_installed (w : AzGuardWorld)
    (inst : Option AzguardClient) (h : w.isInstalled = .ok false) :
    connectAzGuard w inst =
      ({ success := false, error := some "AzGuard wallet not installed" }, inst) := by
  simp [connectAzGuard, connectAzGuardTry, h]

/-- Witness for C2 at a concrete world where the extension is absent. -/
theorem connectAzGuard_not_installed_witness :
    connectAzGuard { isInstalled := .ok false, create := .ok none } none =
      ({ success := false, error := some "AzGuard wallet not installed" }, none) :=
  connectAzGuard_not_installed _ none rfl

/-- Claim C3: every exception from the underlying RPC call makes each
contract-wrapper read method return its hard-coded default:
`getProfileVerifications` the six-false array, `hasProfile` false,
`getProfileId` "0", and `getTotalProfiles` 0. -/
theorem contract_reads_return_default_on_exception (e : String) :
    AztecContractClient.getProfileVerifications (.error e) =
      Json.arr [Json.bool false, Json.bool false, Json.bool false,
        Json.bool false, Json.bool false, Json.bool false] ∧
    AztecContractClient.hasProfile (.error e) = false ∧
    AztecContractClient.getProfileId (.error e) = "0" ∧
    AztecContractClient.getTotalProfiles (.error e) = 0 :=
  ⟨rfl, rfl, rfl, rfl⟩

/-- Claim C4: splitting an account string of the form
`prefixPart ++ ":" ++ addr` (with `addr` free of ':') on ':' yields the
trailing segment `addr` — in particular "aztec:11155111:0xABC" yields
"0xABC" — and a string with no ':' is returned unchanged. -/
theorem connectAzGuard_address_extraction (p a : List Char) (ha : ':' ∉ a) :
    extractAddress (String.mk (p ++ ':' :: a)) = String.mk a ∧
    extractAddress (String.mk a) = String.mk a := by
  constructor
  · rw [extractAddress]
    have hmem : ':' ∈ p ++ ':' :: a :=
      List.mem_append_right _ (List.mem_cons_self _ _)
    have hc : (String.mk (p ++ ':' :: a)).data.contains ':' = true := by
      simp
    rw [if_pos hc]
    have hlast := splitChar_getLast?_append p a ha
    rw [List.getLastD_eq_getLast?, hlast]
    rfl
  · rw [extractAddress]
    have hc : ¬ (String.mk a).data.contains ':' = true := by
      simpa using ha
    rw [if_neg hc]

/-- Witness for C4 at the concrete account string "aztec:11155111:0xABC". -/
theorem connectAzGuard_address_extraction_witness :
    extractAddress "aztec:11155111:0xABC" = "0xABC" ∧
    extractAddress "0xABC" = "0xABC" :=
  connectAzGuard_address_extraction "aztec:11155111".data "0xABC".data (by decide)

/-- Claim C5: `AztecRPCClient.hashString` is a deterministic pure function
of its input string: equal inputs give identical outputs. -/
theorem hashString_deterministic (s₁ s₂ : String) (h : s₁ = s₂) :
    AztecRPCClient.hashString s₁ = AztecRPCClient.hashString s₂ := by
  rw [h]

/-- Witness for C5 at the concrete input "aztec", together with the value
the embedding computes for it. -/
theorem hashString_deterministic_witness :
    AztecRPCClient.hashString "aztec" = AztecRPCClient.hashString "aztec" ∧
    AztecRPCClient.hashString "aztec" =
      "0x0000000000000000000000000000000000000000000000000000000005901d39" :=
  ⟨hashString_deterministic "aztec" "aztec" rfl, by decide⟩

/-- Counterexample to claim C6 at the concrete response
`{error:{message:"boom"}}`: `getBlockNumber` does not throw on an error
response — it returns the number 0; and even when a `.result` field is
also present it returns that result, still without throwing. -/
theorem getBlockNumber_ignores_error_counterexample :
    AztecRPCClient.getBlockNumber
      (.ok (Json.obj [("error", Json.obj [("message", Json.str "boom")])])) =
      Json.num 0 ∧
    AztecRPCClient.getBlockNumber
      (.ok (Json.obj [("error", Json.obj [("message", Json.str "boom")]),
        ("result", Json.num 5)])) = Json.num 5 :=
  ⟨rfl, rfl⟩

/-- Claim C6 as amended: `simulateTransaction` throws exactly when the
response's `.error` field is truthy, and otherwise returns the `.result`
field; `getBlockNumber` never throws — it ignores `.error` entirely,
returning `.result` when truthy and 0 otherwise (also 0 when the
request itself failed). -/
theorem rpc_result_or_error_amended (resp : Json) :
    ((∃ msg, AztecRPCClient.simulateTransaction (.ok resp) = .error msg) ↔
      jsTruthyOpt (resp.getField "error") = true) ∧
    (jsTruthyOpt (resp.getField "error") = false →
      AztecRPCClient.simulateTransaction (.ok resp) =
        .ok (jsVal (resp.getField "result"))) ∧
    (AztecRPCClient.getBlockNumber (.ok resp) =
      if jsTruthyOpt (resp.getField "result") then jsVal (resp.getField "result")
      else Json.num 0) ∧
    (∀ resp' : Json, resp.getField "result" = resp'.getField "result" →
      AztecRPCClient.getBlockNumber (.ok resp) =
        AztecRPCClient.getBlockNumber (.ok resp')) ∧
    (∀ e : String, AztecRPCClient.getBlockNumber (.error e) = Json.num 0) := by
  refine ⟨?_, ?_, rfl, ?_, fun e => rfl⟩
  · cases htr : jsTruthyOpt (resp.getField "error") with
    | true =>
      simp only [AztecRPCClient.simulateTransaction, htr, if_true]
      exact ⟨fun _ => trivial, fun _ => ⟨_, rfl⟩⟩
    | false =>
      simp [AztecRPCClient.simulateTransaction, htr]
  · intro h
    simp [AztecRPCClient.simulateTransaction, h]
  · intro resp' h
    simp only [AztecRPCClient.getBlockNumber, h]

/-- Witness for amended C6: `simulateTransaction` throws on a truthy error
field, and `getBlockNumber` evaluates to the concrete result 3. -/
theorem rpc_result_or_error_amended_witness :
    (∃ msg, AztecRPCClient.simulateTransaction
      (.ok (Json.obj [("error", Json.bool true)])) = .error msg) ∧
    AztecRPCClient.getBlockNumber (.ok (Json.obj [("result", Json.num 3)])) =
      Json.num 3 := by
  have h1 := rpc_result_or_error_amended (Json.obj [("error", Json.bool true)])
  have h2 := rpc_result_or_error_amended (Json.obj [("result", Json.num 3)])
  refine ⟨h1.1.mpr rfl, ?_⟩
  rw [h2.2.2.1]
  rfl

/-- Claim C7: when the account-creation RPC response carries no (truthy)
address in its result, `createAAAccount` succeeds with an address that is a
second, freshly generated random value — generated after, and independently
of, the random address placed into the deployment transaction that was
posted — so whenever the two random draws differ, the returned address
differs from the one in the sent transaction. -/
theorem createAAAccount_fallback_fresh_address
    (w : AztecAccountAbstraction.AAWorld)
    (prior : Option AztecAccountAbstraction.AAAccount)
    (statusResp createResp : AztecAccountAbstraction.FetchResp)
    (statusBody createResult : Json)
    (h1 : w.statusFetch = .ok statusResp) (h1ok : statusResp.ok = true)
    (h2 : w.statusJson = .ok statusBody)
    (h3 : w.createFetch = .ok createResp) (h3ok : createResp.ok = true)
    (h4 : w.createJson = .ok createResult)
    (haddr : jsTruthyOpt ((createResult.getField "result").bind
      (fun r => r.getField "address")) = false) :
    (AztecAccountAbstraction.createAAAccount w prior).result.success = true ∧
    (AztecAccountAbstraction.createAAAccount w prior).result.address =
      some (Json.str (w.randAddrs 1)) ∧
    (AztecAccountAbstraction.createAAAccount w prior).sentTx =
      some { origin := w.randAddrs 0, contractAddress := w.randAddrs 0
           , argsHash := w.sha256hex (w.randAddrs 0), argValue := w.randAddrs 0
           , feeAssetAddress := AztecAccountAbstraction.sponsorAddress } ∧
    (w.randAddrs 1 ≠ w.randAddrs 0 →
      (AztecAccountAbstraction.createAAAccount w prior).result.address ≠
        ((AztecAccountAbstraction.createAAAccount w prior).sentTx.map
          (fun tx => Json.str tx.origin))) := by
  have hbody : AztecAccountAbstraction.createAAAccount w prior =
      { result := { success := true
                  , address := some (Json.str (w.randAddrs 1))
                  , provider := some "account_abstraction" }
      , sentTx :=
          some { origin := w.randAddrs 0, contractAddress := w.randAddrs 0
               , argsHash := w.sha256hex (w.randAddrs 0), argValue := w.randAddrs 0
               , feeAssetAddress := AztecAccountAbstraction.sponsorAddress }
      , account := some
          { address := Json.str (w.randAddrs 1)
          , type := "account_abstraction"
          , isGasless := true
          , sponsor := AztecAccountAbstraction.sponsorAddress
          , transactionHash := (createResult.getField "result").bind
              (fun r => r.getField "transactionHash") } } := by
    simp [AztecAccountAbstraction.createAAAccount, h1, h1ok, h2, h3, h3ok, h4, haddr]
  refine ⟨by rw [hbody], by rw [hbody], by rw [hbody], ?_⟩
  intro hne
  rw [hbody]
  simp [hne]

/-- Concrete world for the C7 witness: all external calls succeed, the
server's result object contains no address, and the two random draws are
the distinct strings "0xaaaa" and "0xbbbb". -/
def aaWitnessWorld : AztecAccountAbstraction.AAWorld :=
  { statusFetch := .ok { ok := true, status := 200 }
  , statusJson := .ok Json.null
  , createFetch := .ok { ok := true, status := 200 }
  , createJson := .ok (Json.obj [("result", Json.obj [])])
  , randAddrs := fun n => if n = 0 then "0xaaaa" else "0xbbbb"
  , sha256hex := fun s => s }

/-- Witness for C7 at `aaWitnessWorld`: the returned address is the second
draw "0xbbbb" and differs from the origin of the sent transaction. -/
theorem createAAAccount_fallback_fresh_address_witness :
    (AztecAccountAbstraction.createAAAccount aaWitnessWorld none).result.address =
      some (Json.str "0xbbbb") ∧
    (AztecAccountAbstraction.createAAAccount aaWitnessWorld none).result.address ≠
      ((AztecAccountAbstraction.createAAAccount aaWitnessWorld none).sentTx.map
        (fun tx => Json.str tx.origin)) := by
  have h := createAAAccount_fallback_fresh_address aaWitnessWorld none
    { ok := true, status := 200 } { ok := true, status := 200 }
    Json.null (Json.obj [("result", Json.obj [])])
    rfl rfl rfl rfl rfl rfl rfl
  exact ⟨h.2.1, h.2.2.2 (by decide)⟩

/-- Claim C8: `AztecRPCClient.sendTransaction` performs no request at all:
it is a total function of the two random draws alone — for every choice of
contract address, function name, params and sender it returns the same
record, with status "success", gasUsed "21000", and the pseudo-random
transaction hash and block number. -/
theorem sendTransaction_is_stub (randHex : String) (randBlock : Nat)
    (ca fn : String) (ps : List Json) (fr : Option String)
    (ca' fn' : String) (ps' : List Json) (fr' : Option String) :
    AztecRPCClient.sendTransaction randHex randBlock ca fn ps fr =
      { transactionHash := "0x" ++ String.mk (randHex.data.take 64)
      , status := "success"
      , blockNumber := randBlock
      , gasUsed := "21000" } ∧
    AztecRPCClient.sendTransaction randHex randBlock ca fn ps fr =
      AztecRPCClient.sendTransaction randHex randBlock ca' fn' ps' fr' :=
  ⟨rfl, rfl⟩

/-- Claim C9: whenever the try block of `connectAzGuard` throws (the catch
path), the returned result has `success:false` and the module-level
`azguardInstance` singleton is null afterwards, so `getAzGuardInstance`
returns null — even if a previous attempt had stored a client there. -/
theorem connectAzGuard_catch_clears_instance (w : AzGuardWorld)
    (inst : Option AzguardClient) (e : String)
    (h : connectAzGuardTry w inst = .error e) :
    (connectAzGuard w inst).1.success = false ∧
    (connectAzGuard w inst).2 = none ∧
    getAzGuardInstance (connectAzGuard w inst).2 = none := by
  simp [connectAzGuard, h, getAzGuardInstance]

/-- Witness for C9: `create()` resolving null throws, and the previously
stored client is cleared. -/
theorem connectAzGuard_catch_clears_instance_witness :
    (connectAzGuard { isInstalled := .ok true, create := .ok none }
      (some { connected := true, connectOutcome := .ok ()
            , accounts := some ["aztec:11155111:0xABC"] })).1.success = false ∧
    (connectAzGuard { isInstalled := .ok true, create := .ok none }
      (some { connected := true, connectOutcome := .ok ()
            , accounts := some ["aztec:11155111:0xABC"] })).2 = none :=
  have h := connectAzGuard_catch_clears_instance
    { isInstalled := .ok true, create := .ok none }
    (some { connected := true, connectOutcome := .ok ()
          , accounts := some ["aztec:11155111:0xABC"] })
    "Failed to initialize AzGuard client" rfl
  ⟨h.1, h.2.1⟩

/-- Claim C10: for both wallet classes, `disconnect()` clears all held
state (`account` and `keyPair`, resp. `account` and `pxe`), so
`getCurrentAccount()` returns null immediately after `disconnect()`
from any prior state. -/
theorem disconnect_clears_account (s : AztecSponsoredWallet.State)
    (t : AztecAccountAbstraction.State) :
    AztecSponsoredWallet.getCurrentAccount (AztecSponsoredWallet.disconnect s) =
      none ∧
    (AztecSponsoredWallet.disconnect s).keyPair = none ∧
    AztecAccountAbstraction.getCurrentAccount
      (AztecAccountAbstraction.disconnect t) = none ∧
    (AztecAccountAbstraction.disconnect t).pxe = none :=
  ⟨rfl, rfl, rfl, rfl⟩
